import Mathlib

/-!
# PlaceIntel Pro intelligence service — verification development

Shallow embedding of `src/intelligence/app.py` (the Python intelligence
service) and proofs about it.

Modelling conventions:
* Python `float` values are modelled as `ℚ`; every constant in the source is
  exactly representable.
* `random.uniform(a, b)` / `random.choice(xs)` draws are passed in as explicit
  parameters (a draw environment), so every function is a pure function of its
  input and the draws.  Hypotheses `a ≤ r ∧ r ≤ b` recover the documented
  ranges of the draws.
* Python `round(x, n)` is modelled as `⌊x·10ⁿ + 1/2⌋ / 10ⁿ` (round half up;
  Python uses round half to even, but no statement below depends on tie
  behaviour, and every boundary value used in a proof is tie-free).
* Python `needle in haystack` on strings is a contiguous-substring test,
  modelled by `strContains`.  `str.lower()` is modelled by `pyLower`
  (ASCII lowering; all keyword constants in the source are ASCII except the
  already-lowercase `"café"`).
* Wall-clock times (`processing_time_ms`, `last_updated`) are not modelled;
  no claim mentions their values.
-/

/-- Python's `needle in hay` on lists of characters: `needle` occurs as a
contiguous sublist of `hay`. -/
def charContains (needle : List Char) : List Char → Bool
  | [] => needle.isEmpty
  | c :: rest => needle.isPrefixOf (c :: rest) || charContains needle rest

/-- Python's `needle in hay` on strings. -/
def strContains (hay needle : String) : Bool :=
  charContains needle.data hay.data

/-- Python's `str.lower()` (ASCII lowering, see header note). -/
def pyLower (s : String) : String :=
  ⟨s.data.map Char.toLower⟩

/-- Python's `round(q, n)`: round to `n` decimal places (see header note on
tie behaviour). -/
def pyRound (n : ℕ) (q : ℚ) : ℚ :=
  (⌊q * 10 ^ n + 1 / 2⌋ : ℚ) / 10 ^ n

/-- Python's binary `min` on numbers. -/
def pyMin (a b : ℚ) : ℚ :=
  if a ≤ b then a else b

/-- Python's binary `max` on numbers. -/
def pyMax (a b : ℚ) : ℚ :=
  if b ≤ a then a else b

/-- `max lo (min hi x)`, the clamping idiom used throughout the source. -/
def clamp (lo hi x : ℚ) : ℚ :=
  pyMax lo (pyMin hi x)

/-- Splitting a character list at whitespace (helper for `pySplit`). -/
def splitWs (cur : List Char) : List Char → List (List Char)
  | [] => [cur.reverse]
  | c :: rest =>
    if c.isWhitespace then cur.reverse :: splitWs [] rest
    else splitWs (c :: cur) rest

/-- Python's `str.split()`: split on whitespace runs, dropping empty pieces. -/
def pySplit (s : String) : List String :=
  ((splitWs [] s.data).filter (fun w => w ≠ [])).map List.asString

/-- A single element of a place's `categories` array: a JSON object whose
`name` key may be absent (the source reads it with `.get('name', '')`). -/
structure Category where
  name : Option String
deriving DecidableEq

/-- The `place` JSON object.  `extraKeys` stands for any further keys the
client sent; they are ignored by the analyzers but make the object non-empty
for the endpoint's falsiness test. -/
structure PlaceObj where
  name : Option String
  categories : Option (List Category)
  location : Option Unit
  extraKeys : List String
deriving DecidableEq

/-- Python's `not place_data` for a dict: true iff the dict is empty. -/
def PlaceObj.isEmptyDict (p : PlaceObj) : Bool :=
  p.name.isNone && p.categories.isNone && p.location.isNone && p.extraKeys.isEmpty

/-- `place_data.get('name', '')`. -/
def PlaceObj.getName (p : PlaceObj) : String :=
  p.name.getD ""

/-- `place_data.get('categories', [])`. -/
def PlaceObj.getCategories (p : PlaceObj) : List Category :=
  p.categories.getD []

/-- `categories[0].get('name', '')` for a category object. -/
def Category.getName (c : Category) : String :=
  c.name.getD ""

namespace BusinessIntelligenceEngine

/-- Per-category insight table `category_insights` (specialties, ideal_for,
atmosphere, price_range). -/
structure CatInfo where
  specialties : List String
  ideal_for : List String
  atmosphere : String
  price_range : String
deriving DecidableEq

/-- `self.category_insights`. -/
def category_insights (c : String) : Option CatInfo :=
  if c = "coffee" then
    some ⟨["artisanal coffee", "espresso", "latte art"],
          ["remote work", "meetings", "studying"], "cozy", "moderate"⟩
  else if c = "restaurant" then
    some ⟨["local cuisine", "fresh ingredients"],
          ["dining", "celebrations", "dates"], "welcoming", "varied"⟩
  else if c = "gym" then
    some ⟨["fitness equipment", "personal training"],
          ["workouts", "fitness classes", "health"], "energetic", "membership"⟩
  else if c = "library" then
    some ⟨["study spaces", "books", "quiet environment"],
          ["studying", "research", "reading"], "quiet", "free"⟩
  else if c = "shopping" then
    some ⟨["retail", "variety", "brands"],
          ["shopping", "browsing", "gifts"], "busy", "varied"⟩
  else none

/-- `BusinessIntelligenceEngine._get_primary_category`: map the first
category's lower-cased name to an internal category via substring tests. -/
def get_primary_category (categories : List Category) : String :=
  match categories with
  | [] => "general"
  | c0 :: _ =>
    let category_name := pyLower c0.getName
    if strContains category_name "coffee" || strContains category_name "café" then
      "coffee"
    else if strContains category_name "restaurant" || strContains category_name "food" then
      "restaurant"
    else if strContains category_name "gym" || strContains category_name "fitness" then
      "gym"
    else if strContains category_name "library" then
      "library"
    else if strContains category_name "shop" || strContains category_name "store" then
      "shopping"
    else
      "general"

/-- `_calculate_popularity_score`.  `r` is the `random.uniform(-1.0, 2.0)`
draw. -/
def calculate_popularity_score (name : String) (categories : List Category)
    (r : ℚ) : ℚ :=
  let score : ℚ := 5.0
  let score :=
    if ["starbucks", "mcdonalds", "subway"].any
        (fun brand => strContains (pyLower name) brand) then
      score + 2.0
    else if (pySplit name).length > 3 then
      score + 1.0
    else score
  let score :=
    match categories with
    | [] => score
    | c0 :: _ =>
      let category_name := pyLower c0.getName
      if strContains category_name "coffee" then score + 1.5
      else if strContains category_name "restaurant" then score + 1.0
      else score
  let score := score + r
  clamp 1.0 10.0 score

/-- The per-category base sentiment table inside `_analyze_sentiment`,
with its `.get(category, 3.5)` default. -/
def category_sentiment (c : String) : ℚ :=
  if c = "coffee" then 4.0
  else if c = "restaurant" then 3.8
  else if c = "library" then 4.2
  else if c = "gym" then 3.5
  else if c = "shopping" then 3.6
  else 3.5

/-- `_analyze_sentiment`.  `r` is the `random.uniform(-0.5, 0.5)` draw. -/
def analyze_sentiment (name : String) (category : String) (r : ℚ) : ℚ :=
  let positive_words := ["best", "premium", "artisan", "fresh", "quality", "authentic"]
  let negative_words := ["cheap", "fast", "quick"]
  let name_lower := pyLower name
  let sentiment := positive_words.foldl
    (fun s w => if strContains name_lower w then s + 0.5 else s) (3.5 : ℚ)
  let sentiment := negative_words.foldl
    (fun s w => if strContains name_lower w then s - 0.3 else s) sentiment
  let base_sentiment := category_sentiment category
  let sentiment := (sentiment + base_sentiment) / 2
  let sentiment := sentiment + r
  clamp 1.0 5.0 sentiment

/-- The per-category trending base table inside `_calculate_trending_score`,
with its `.get(category, 5.0)` default. -/
def trending_categories (c : String) : ℚ :=
  if c = "coffee" then 8.5
  else if c = "gym" then 7.8
  else if c = "restaurant" then 7.0
  else if c = "library" then 6.0
  else if c = "shopping" then 6.5
  else 5.0

/-- `_calculate_trending_score` (deterministic given the current hour): an
if/elif chain of time bonuses over the base table, then clamp to `[0, 10]`. -/
def calculate_trending_score (category : String) (hour : ℕ) : ℚ :=
  let base_score := trending_categories category
  let base_score :=
    if 7 ≤ hour ∧ hour ≤ 9 ∧ category = "coffee" then base_score + 1.0
    else if 12 ≤ hour ∧ hour ≤ 14 ∧ category = "restaurant" then base_score + 1.0
    else if 18 ≤ hour ∧ hour ≤ 20 ∧ category = "restaurant" then base_score + 1.0
    else base_score
  clamp 0.0 10.0 base_score

/-- The business analyzer's result object (wall-clock field omitted). -/
structure BusinessResult where
  popularity_score : ℚ
  sentiment_score : ℚ
  specialties : List String
  ideal_for : List String
  price_range : String
  atmosphere : String
  trending_score : ℚ
deriving DecidableEq

/-- `BusinessIntelligenceEngine.analyze_place`.  `hour` is
`datetime.now().hour`; `rPop`, `rSent` are the two uniform draws. -/
def analyze_place (place_data : PlaceObj) (hour : ℕ) (rPop rSent : ℚ) :
    BusinessResult :=
  let name := place_data.getName
  let categories := place_data.getCategories
  let primary_category := get_primary_category categories
  let popularity_score := calculate_popularity_score name categories rPop
  let sentiment_score := analyze_sentiment name primary_category rSent
  let category_info := category_insights primary_category
  let trending_score := calculate_trending_score primary_category hour
  { popularity_score := pyRound 1 popularity_score
    sentiment_score := pyRound 1 sentiment_score
    specialties := (category_info.map CatInfo.specialties).getD []
    ideal_for := (category_info.map CatInfo.ideal_for).getD []
    price_range := (category_info.map CatInfo.price_range).getD "unknown"
    atmosphere := (category_info.map CatInfo.atmosphere).getD "unknown"
    trending_score := pyRound 1 trending_score }

end BusinessIntelligenceEngine

namespace RealTimeContextEngine

/-- `RealTimeContextEngine._get_primary_category`: the raw lower-cased label
of the first category (no mapping to the internal enum). -/
def get_primary_category (categories : List Category) : String :=
  match categories with
  | [] => "general"
  | c0 :: _ => pyLower c0.getName

/-- `_determine_status`: open/closed from per-category business hours. -/
def determine_status (category : String) (hour : ℕ) : String :=
  if strContains category "restaurant" then
    if 6 ≤ hour ∧ hour ≤ 23 then "open" else "closed"
  else if strContains category "coffee" then
    if 6 ≤ hour ∧ hour ≤ 20 then "open" else "closed"
  else if strContains category "gym" then
    if 5 ≤ hour ∧ hour ≤ 23 then "open" else "closed"
  else if strContains category "library" then
    if 8 ≤ hour ∧ hour ≤ 20 then "open" else "closed"
  else
    if 9 ≤ hour ∧ hour ≤ 21 then "open" else "closed"

/-- `_estimate_crowd_level`.  `rChoice` is the value the
`random.choice(['quiet', 'moderate', 'busy'])` draw returned; it is only
consulted in the final `else` branch. -/
def estimate_crowd_level (category : String) (hour : ℕ) (rChoice : String) :
    String :=
  if strContains category "restaurant" then
    if hour ∈ [12, 13, 18, 19, 20] then "busy"
    else if hour ∈ [11, 14, 17, 21] then "moderate"
    else "quiet"
  else if strContains category "coffee" then
    if hour ∈ [7, 8, 9, 14, 15] then "busy"
    else if hour ∈ [10, 11, 16, 17] then "moderate"
    else "quiet"
  else if strContains category "gym" then
    if hour ∈ [6, 7, 17, 18, 19] then "busy"
    else if hour ∈ [8, 9, 16, 20] then "moderate"
    else "quiet"
  else
    rChoice

/-- `_suggest_best_times`. -/
def suggest_best_times (category : String) : List String :=
  if strContains category "restaurant" then
    ["11:30-12:00", "14:30-17:00", "21:00-22:00"]
  else if strContains category "coffee" then
    ["10:00-11:30", "15:30-17:00"]
  else if strContains category "gym" then
    ["10:00-16:00", "21:00-23:00"]
  else if strContains category "library" then
    ["9:00-11:00", "14:00-16:00"]
  else
    ["10:00-12:00", "14:00-16:00"]

/-- `_detect_events`. -/
def detect_events (category : String) (hour : ℕ) : List String :=
  if strContains category "library" ∧ 14 ≤ hour ∧ hour ≤ 16 then
    ["study group session"]
  else if strContains category "gym" ∧ hour ∈ [18, 19] then
    ["fitness class"]
  else if strContains category "coffee" ∧ hour ∈ [15, 16] then
    ["afternoon networking"]
  else
    []

/-- `_estimate_wait_time`. -/
def estimate_wait_time (crowd_level : String) : String :=
  if crowd_level = "busy" then "10-15 minutes"
  else if crowd_level = "moderate" then "5-10 minutes"
  else "no wait"

/-- `_assess_weather_impact`.  `rWeather` is the value of the
`random.choice(['sunny', 'rainy', 'cloudy'])` draw. -/
def assess_weather_impact (category : String) (rWeather : String) : String :=
  if rWeather = "rainy" ∧ strContains category "outdoor" then
    "high impact - indoor alternatives recommended"
  else if rWeather = "sunny" ∧ strContains category "park" then
    "positive impact - great weather for outdoor activities"
  else
    "minimal impact"

/-- The context analyzer's result object (wall-clock fields omitted). -/
structure ContextResult where
  current_status : String
  crowd_level : String
  best_visit_times : List String
  live_events : List String
  estimated_wait_time : String
  weather_impact : String
  confidence_score : ℚ
deriving DecidableEq

/-- `RealTimeContextEngine.analyze_context`.  `hour` is
`datetime.now().hour`; `rCrowd`, `rWeather`, `rConf` are the three random
draws. -/
def analyze_context (place_data : PlaceObj) (hour : ℕ)
    (rCrowd rWeather : String) (rConf : ℚ) : ContextResult :=
  let categories := place_data.getCategories
  let primary_category := get_primary_category categories
  let status := determine_status primary_category hour
  let crowd_level := estimate_crowd_level primary_category hour rCrowd
  let best_times := suggest_best_times primary_category
  let events := detect_events primary_category hour
  let wait_time := estimate_wait_time crowd_level
  let weather_impact := assess_weather_impact primary_category rWeather
  { current_status := status
    crowd_level := crowd_level
    best_visit_times := best_times
    live_events := events
    estimated_wait_time := wait_time
    weather_impact := weather_impact
    confidence_score := pyRound 2 rConf }

end RealTimeContextEngine

namespace AccessibilityIntelligenceEngine

/-- `_calculate_accessibility_score`.  `r` is the `random.uniform(-1.0, 1.0)`
draw.  Note the early return: an empty categories list yields the base score
before the name bonus or the random perturbation are applied. -/
def calculate_accessibility_score (categories : List Category) (name : String)
    (r : ℚ) : ℚ :=
  let base_score : ℚ := 5.0
  match categories with
  | [] => base_score
  | c0 :: _ =>
    let category_name := pyLower c0.getName
    let base_score :=
      if ["new", "modern", "center", "mall"].any
          (fun word => strContains (pyLower name) word) then
        base_score + 2.0
      else base_score
    let base_score :=
      if strContains category_name "library" || strContains category_name "hospital" then
        base_score + 3.0
      else if strContains category_name "restaurant" && strContains (pyLower name) "chain" then
        base_score + 2.0
      else if strContains category_name "gym" then
        base_score + 1.5
      else base_score
    let base_score := base_score + r
    clamp 0.0 10.0 base_score

/-- The 7-key accessibility feature map. -/
structure Features where
  ramp_access : Bool
  elevator : Bool
  accessible_restrooms : Bool
  braille_signage : Bool
  hearing_loop : Bool
  wide_entrances : Bool
  accessible_parking : Bool
deriving DecidableEq

/-- The five independent `random.choice([True, False])` draws that
`_analyze_accessibility_features` / `_default_features` may consume. -/
structure FeatureDraws where
  ramp : Bool
  elevator : Bool
  restrooms : Bool
  wide : Bool
  parking : Bool
deriving DecidableEq

/-- `_default_features`. -/
def default_features (d : FeatureDraws) : Features :=
  { ramp_access := d.ramp
    elevator := d.elevator
    accessible_restrooms := d.restrooms
    braille_signage := false
    hearing_loop := false
    wide_entrances := d.wide
    accessible_parking := d.parking }

/-- `_analyze_accessibility_features`. -/
def analyze_accessibility_features (categories : List Category)
    (d : FeatureDraws) : Features :=
  match categories with
  | [] => default_features d
  | c0 :: _ =>
    let category_name := pyLower c0.getName
    if strContains category_name "library" then
      { ramp_access := true, elevator := true, accessible_restrooms := true,
        braille_signage := true, hearing_loop := true, wide_entrances := true,
        accessible_parking := true }
    else if strContains category_name "restaurant" then
      { ramp_access := d.ramp, elevator := false,
        accessible_restrooms := d.restrooms, braille_signage := false,
        hearing_loop := false, wide_entrances := d.wide,
        accessible_parking := d.parking }
    else if strContains category_name "gym" then
      { ramp_access := true, elevator := d.elevator,
        accessible_restrooms := true, braille_signage := false,
        hearing_loop := false, wide_entrances := true,
        accessible_parking := true }
    else
      default_features d

/-- The three recommendation lists returned by
`_generate_inclusive_recommendations`. -/
structure Recommendations where
  mobility_friendly_areas : List String
  sensory_accommodations : List String
  cognitive_support : List String
deriving DecidableEq

/-- `_generate_inclusive_recommendations` (purely a function of the features
map and the category). -/
def generate_inclusive_recommendations (categories : List Category)
    (features : Features) : Recommendations :=
  match categories with
  | [] => ⟨[], [], []⟩
  | c0 :: _ =>
    let category_name := pyLower c0.getName
    let mobility :=
      (if features.ramp_access then ["main entrance accessible"] else []) ++
      (if features.elevator then ["all floors accessible"] else []) ++
      (if features.accessible_restrooms then ["accessible restroom facilities"] else [])
    let sensory :=
      (if strContains category_name "library" then
        ["quiet study areas available", "adjustable lighting in reading areas"]
      else []) ++
      (if features.hearing_loop then ["hearing loop system available"] else [])
    let cognitive :=
      if strContains category_name "library" then
        ["clear signage and wayfinding", "staff available for assistance"]
      else if strContains category_name "restaurant" then
        ["picture menus available"]
      else []
    ⟨mobility, sensory, cognitive⟩

/-- The accessibility analyzer's result object (wall-clock field omitted). -/
structure AccessResult where
  wheelchair_accessible : Bool
  accessibility_score : ℚ
  features : Features
  inclusive_recommendations : Recommendations
deriving DecidableEq

/-- `AccessibilityIntelligenceEngine.analyze_accessibility`.  `rScore` is the
uniform draw, `d` the feature draws. -/
def analyze_accessibility (place_data : PlaceObj) (rScore : ℚ)
    (d : FeatureDraws) : AccessResult :=
  let categories := place_data.getCategories
  let name := place_data.getName
  let accessibility_score := calculate_accessibility_score categories name rScore
  let features := analyze_accessibility_features categories d
  let recommendations := generate_inclusive_recommendations categories features
  { wheelchair_accessible := decide (accessibility_score ≥ 7.0)
    accessibility_score := pyRound 1 accessibility_score
    features := features
    inclusive_recommendations := recommendations }

end AccessibilityIntelligenceEngine

namespace UnifiedRecommendationEngine

open BusinessIntelligenceEngine RealTimeContextEngine
  AccessibilityIntelligenceEngine

/-- The `scores` list collected by `_calculate_confidence_score` before it is
averaged.  (The analyzer result objects always carry their score keys, so the
`.get(..., 0)` defaults of the source never apply in the pipeline.) -/
def confidence_weights (business_intel : BusinessResult)
    (realtime_context : ContextResult)
    (accessibility_intel : AccessResult) : List ℚ :=
  (if business_intel.popularity_score > 0 then [0.8] else []) ++
  (if realtime_context.confidence_score > 0 then
    [realtime_context.confidence_score] else []) ++
  (if accessibility_intel.accessibility_score > 0 then [0.7] else [])

/-- `_calculate_confidence_score`: average the collected weights, defaulting
to 0.5 when none were collected. -/
def calculate_confidence_score (business_intel : BusinessResult)
    (realtime_context : ContextResult)
    (accessibility_intel : AccessResult) : ℚ :=
  let scores := confidence_weights business_intel realtime_context accessibility_intel
  if scores = [] then 0.5 else scores.sum / scores.length

/-- Python's `str.capitalize()`-per-word behaviour of `str.title()`,
restricted to space-separated words (sufficient for the sentences built
here). -/
def pyCapitalize (s : String) : String :=
  match s.data with
  | [] => ""
  | c :: rest => ⟨Char.toUpper c :: rest.map Char.toLower⟩

/-- Python's `str.title()` (modelled on space-separated words). -/
def pyTitle (s : String) : String :=
  String.intercalate " " ((s.splitOn " ").map pyCapitalize)

/-- The ordered candidate sentences of `_generate_personalized_insights`,
before the `[:4]` truncation. -/
def insight_candidates (business_intel : BusinessResult)
    (realtime_context : ContextResult)
    (accessibility_intel : AccessResult) : List String :=
  let popularity := business_intel.popularity_score
  (if popularity ≥ 8.0 then
    [s!"Highly popular destination with {popularity}/10 rating"]
  else if popularity ≥ 6.0 then
    [s!"Well-regarded place with {popularity}/10 popularity"]
  else []) ++
  (if realtime_context.crowd_level = "quiet" then
    ["Currently quiet - perfect for a peaceful visit"]
  else if realtime_context.crowd_level = "busy" then
    ["Currently busy - consider visiting during suggested off-peak times"]
  else []) ++
  (if accessibility_intel.wheelchair_accessible then
    ["Fully wheelchair accessible with comprehensive features"]
  else []) ++
  (if business_intel.atmosphere ≠ "" ∧ business_intel.ideal_for ≠ [] then
    [pyTitle business_intel.atmosphere ++ " atmosphere, ideal for " ++
      String.intercalate ", " business_intel.ideal_for]
  else [])

/-- `_generate_personalized_insights`: the candidates, truncated to 4. -/
def generate_personalized_insights (business_intel : BusinessResult)
    (realtime_context : ContextResult)
    (accessibility_intel : AccessResult) : List String :=
  (insight_candidates business_intel realtime_context accessibility_intel).take 4

/-- The per-category alternative sentences of `_suggest_alternatives`,
before the `[:3]` truncation. -/
def alternative_candidates (category_name : String) : List String :=
  if strContains category_name "coffee" then
    ["Local independent coffee shops nearby",
     "Tea houses for alternative beverages",
     "Co-working spaces with café facilities"]
  else if strContains category_name "restaurant" then
    ["Similar cuisine restaurants in the area",
     "Food trucks for casual dining",
     "Delivery options if crowded"]
  else if strContains category_name "gym" then
    ["Outdoor fitness areas nearby",
     "Alternative fitness studios",
     "Home workout options during peak hours"]
  else []

/-- `_suggest_alternatives`: early return `[]` on an empty categories list,
otherwise the category's candidates truncated to 3. -/
def suggest_alternatives (place_data : PlaceObj) : List String :=
  match place_data.getCategories with
  | [] => []
  | c0 :: _ => (alternative_candidates (pyLower c0.getName)).take 3

/-- `_create_visit_strategy`. -/
def create_visit_strategy (realtime_context : ContextResult)
    (accessibility_intel : AccessResult) : String :=
  let best_times := realtime_context.best_visit_times
  let crowd_level := realtime_context.crowd_level
  let wait_time := realtime_context.estimated_wait_time
  let strategy_parts :=
    (if best_times ≠ [] then
      ["Best visit times: " ++ String.intercalate ", " best_times]
    else []) ++
    (if crowd_level = "busy" ∧ wait_time ≠ "no wait" then
      ["Current wait time: " ++ wait_time]
    else []) ++
    (if accessibility_intel.wheelchair_accessible then
      ["Accessible entrance available"]
    else [])
  if strategy_parts = [] then "Visit anytime based on your preference"
  else String.intercalate ". " strategy_parts

/-- The candidate notes of `_create_accessibility_notes`, before the `[:3]`
truncation. -/
def note_candidates (accessibility_intel : AccessResult) : List String :=
  (if accessibility_intel.wheelchair_accessible then
    ["Wheelchair accessible with ramp access"]
  else
    ["Accessibility features may be limited - recommend calling ahead"]) ++
  (if accessibility_intel.features.accessible_restrooms then
    ["Accessible restroom facilities available"]
  else []) ++
  (if accessibility_intel.features.hearing_loop then
    ["Hearing loop system available for hearing aid users"]
  else [])

/-- `_create_accessibility_notes`: the candidates, truncated to 3. -/
def create_accessibility_notes (accessibility_intel : AccessResult) :
    List String :=
  (note_candidates accessibility_intel).take 3

/-- The synthesis result object (wall-clock field omitted). -/
structure SynthResult where
  confidence_score : ℚ
  personalized_insights : List String
  alternative_suggestions : List String
  optimal_visit_strategy : String
  accessibility_notes : List String
deriving DecidableEq

/-- `UnifiedRecommendationEngine.generate_recommendations`. -/
def generate_recommendations (place_data : PlaceObj)
    (business_intel : BusinessResult) (realtime_context : ContextResult)
    (accessibility_intel : AccessResult) : SynthResult :=
  { confidence_score := pyRound 2
      (calculate_confidence_score business_intel realtime_context accessibility_intel)
    personalized_insights :=
      generate_personalized_insights business_intel realtime_context accessibility_intel
    alternative_suggestions := suggest_alternatives place_data
    optimal_visit_strategy :=
      create_visit_strategy realtime_context accessibility_intel
    accessibility_notes := create_accessibility_notes accessibility_intel }

end UnifiedRecommendationEngine

/-! ## The `/api/v1/intelligence/enhance` endpoint -/

/-- All random draws and the clock reading a single request consumes. -/
structure Env where
  hour : ℕ
  rPop : ℚ
  rSent : ℚ
  rCrowd : String
  rWeather : String
  rConf : ℚ
  rAccess : ℚ
  featureDraws : AccessibilityIntelligenceEngine.FeatureDraws

/-- The request body: `none` models a missing/unparsable JSON body; otherwise
the body is an object with an optional `place` key (plus any further keys,
which only affect the body's falsiness test). -/
structure ReqBody where
  place : Option PlaceObj
  extraKeys : List String
deriving DecidableEq

/-- Python's `not data` for the parsed body object. -/
def ReqBody.isEmptyDict (b : ReqBody) : Bool :=
  b.place.isNone && b.extraKeys.isEmpty

/-- A value of the top-level response object. -/
inductive TopVal
  | business (b : BusinessIntelligenceEngine.BusinessResult)
  | context (c : RealTimeContextEngine.ContextResult)
  | access (a : AccessibilityIntelligenceEngine.AccessResult)
  | unified (u : UnifiedRecommendationEngine.SynthResult)
  | num (q : ℚ)
  | strs (l : List String)
deriving DecidableEq

/-- An HTTP outcome of the endpoint: an error JSON `{'error': msg}` with an
explicit status code, or a 200 response carrying the composite object as an
ordered list of key/value pairs. -/
inductive HttpResult
  | err (status : ℕ) (msg : String)
  | ok (fields : List (String × TopVal))
deriving DecidableEq

/-- The HTTP status code of an outcome (Flask's `jsonify(...)` without an
explicit code is 200). -/
def HttpResult.status : HttpResult → ℕ
  | .err s _ => s
  | .ok _ => 200

/-- Whether the response body carries an `error` field. -/
def HttpResult.hasErrorField : HttpResult → Bool
  | .err _ _ => true
  | .ok _ => false

/-- The top-level keys of the response body. -/
def HttpResult.topKeys : HttpResult → List String
  | .err _ _ => ["error"]
  | .ok fields => fields.map Prod.fst

/-- The successful pipeline of `enhance_place_intelligence`: run the four
engines in order and assemble the composite response.  (`processing_time_ms`
is a wall-clock measurement, modelled as 0.) -/
def enhancePipeline (env : Env) (place_data : PlaceObj) :
    List (String × TopVal) :=
  let business_intel :=
    BusinessIntelligenceEngine.analyze_place place_data env.hour env.rPop env.rSent
  let realtime_context :=
    RealTimeContextEngine.analyze_context place_data env.hour env.rCrowd
      env.rWeather env.rConf
  let accessibility_intel :=
    AccessibilityIntelligenceEngine.analyze_accessibility place_data env.rAccess
      env.featureDraws
  let unified_recommendations :=
    UnifiedRecommendationEngine.generate_recommendations place_data
      business_intel realtime_context accessibility_intel
  [("business_intelligence", .business business_intel),
   ("real_time_context", .context realtime_context),
   ("accessibility_intelligence", .access accessibility_intel),
   ("unified_recommendations", .unified unified_recommendations),
   ("processing_time_ms", .num 0),
   ("data_sources", .strs ["foursquare", "ml_models", "accessibility_db", "real_time_feeds"])]

/-- `enhance_place_intelligence`: the request handler.  `body = none` models
`request.get_json()` returning nothing. -/
def enhance_place_intelligence (env : Env) (body : Option ReqBody) :
    HttpResult :=
  match body with
  | none => .err 400 "No data provided"
  | some data =>
    if data.isEmptyDict then .err 400 "No data provided"
    else
      let place_data := data.place.getD ⟨none, none, none, []⟩
      if place_data.isEmptyDict then .err 400 "No place data provided"
      else .ok (enhancePipeline env place_data)

/-! ## Spec-side definitions and sample inputs -/

/-- A sample place for concrete instantiations. -/
def samplePlace : PlaceObj :=
  ⟨some "Starbucks Downtown", some [⟨some "Coffee Shop"⟩], none, []⟩

/-- A sample draw/clock environment for concrete instantiations. -/
def sampleEnv : Env :=
  ⟨12, 0, 0, "quiet", "sunny", 0.8, 0, ⟨false, false, false, false, false⟩⟩

/-- The category classifier exactly as §4.1 of the spec words it: empty
sequence gives `general`; otherwise the first element's lower-cased name is
tested by substring containment against keyword sets in a fixed precedence
order (first match wins), with `general` as the fallthrough. -/
def classifierSpec (categories : List Category) : String :=
  match categories with
  | [] => "general"
  | c0 :: _ =>
    let label := pyLower c0.getName
    if ["coffee", "café"].any (fun k => strContains label k) then "coffee"
    else if ["restaurant", "food"].any (fun k => strContains label k) then "restaurant"
    else if ["gym", "fitness"].any (fun k => strContains label k) then "gym"
    else if ["library"].any (fun k => strContains label k) then "library"
    else if ["shop", "store"].any (fun k => strContains label k) then "shopping"
    else "general"

/-- The trending score as §4.2 of the spec words it: the three time bonuses
are evaluated as independent, non-exclusive conditions and summed, then the
total is clamped to `[0, 10]`. -/
def trendingSpec (category : String) (hour : ℕ) : ℚ :=
  clamp 0.0 10.0
    (BusinessIntelligenceEngine.trending_categories category +
      (if category = "coffee" ∧ 7 ≤ hour ∧ hour ≤ 9 then 1.0 else 0) +
      (if category = "restaurant" ∧ 12 ≤ hour ∧ hour ≤ 14 then 1.0 else 0) +
      (if category = "restaurant" ∧ 18 ≤ hour ∧ hour ≤ 20 then 1.0 else 0))

/-- The spec's client-error condition for the enhance endpoint: the body is
missing/empty, or the `place` key is missing or maps to an empty object. -/
def specBadRequest (body : Option ReqBody) : Bool :=
  match body with
  | none => true
  | some d => d.isEmptyDict || (d.place.getD ⟨none, none, none, []⟩).isEmptyDict

/-- A well-formed request body for concrete instantiations. -/
def sampleBody : ReqBody := ⟨some samplePlace, []⟩


example : BusinessIntelligenceEngine.get_primary_category
    [⟨some "Coffee Shop"⟩] = "coffee" := by decide

example : BusinessIntelligenceEngine.get_primary_category
    [⟨some "Food Court"⟩] = "restaurant" := by decide

example : BusinessIntelligenceEngine.calculate_popularity_score
    "Starbucks Downtown" [⟨some "Coffee Shop"⟩] 0 = 8.5 := by
  simp +decide [BusinessIntelligenceEngine.calculate_popularity_score,
    clamp, pyMin, pyMax]
  norm_num

example : RealTimeContextEngine.estimate_crowd_level "library" 12 "busy" =
    "busy" := by decide

/-! ## Helper lemmas -/

lemma lo_le_clamp (lo hi x : ℚ) : lo ≤ clamp lo hi x := by
  unfold clamp pyMax pyMin
  split_ifs <;> linarith

lemma clamp_le_hi (lo hi x : ℚ) (h : lo ≤ hi) : clamp lo hi x ≤ hi := by
  unfold clamp pyMax pyMin
  split_ifs <;> linarith

lemma le_clamp (lo hi a x : ℚ) (hhi : a ≤ hi) (hx : a ≤ x) :
    a ≤ clamp lo hi x := by
  unfold clamp pyMax pyMin
  split_ifs <;> linarith

lemma pyRound_mono {n : ℕ} {x y : ℚ} (h : x ≤ y) : pyRound n x ≤ pyRound n y := by
  unfold pyRound
  have hp : (0 : ℚ) < 10 ^ n := by positivity
  have hf : ⌊x * 10 ^ n + 1 / 2⌋ ≤ ⌊y * 10 ^ n + 1 / 2⌋ := by
    apply Int.floor_le_floor
    have := mul_le_mul_of_nonneg_right h hp.le
    linarith
  have hc : ((⌊x * 10 ^ n + 1 / 2⌋ : ℤ) : ℚ) ≤ ((⌊y * 10 ^ n + 1 / 2⌋ : ℤ) : ℚ) := by
    exact_mod_cast hf
  exact (div_le_div_iff_of_pos_right hp).mpr hc

lemma pyRound_self {n : ℕ} {q : ℚ} (k : ℤ) (h : q * 10 ^ n = (k : ℚ)) :
    pyRound n q = q := by
  have hp : (0 : ℚ) < 10 ^ n := by positivity
  have h1 : ⌊q * 10 ^ n + 1 / 2⌋ = k := by
    rw [h, Int.floor_eq_iff]
    constructor
    · linarith
    · linarith
  unfold pyRound
  rw [h1, div_eq_iff (ne_of_gt hp)]
  exact h.symm

lemma pyRound1_zero : pyRound 1 0 = 0 := pyRound_self 0 (by norm_num)

lemma pyRound1_one : pyRound 1 1 = 1 := pyRound_self 10 (by norm_num)

lemma pyRound1_four : pyRound 1 4 = 4 := pyRound_self 40 (by norm_num)

lemma pyRound1_five : pyRound 1 5 = 5 := pyRound_self 50 (by norm_num)

lemma pyRound1_ten : pyRound 1 10 = 10 := pyRound_self 100 (by norm_num)

lemma pyRound2_low : pyRound 2 0.7 = 0.7 := pyRound_self 70 (by norm_num)

lemma pyRound2_high : pyRound 2 0.95 = 0.95 := pyRound_self 95 (by norm_num)

/-- `lo` and `hi` both round to themselves, so rounding a clamped value stays
inside `[lo, hi]`. -/
lemma pyRound_clamp_bounds {n : ℕ} {lo hi : ℚ} (x : ℚ) (h : lo ≤ hi)
    (hl : pyRound n lo = lo) (hh : pyRound n hi = hi) :
    lo ≤ pyRound n (clamp lo hi x) ∧ pyRound n (clamp lo hi x) ≤ hi := by
  constructor
  · calc lo = pyRound n lo := hl.symm
      _ ≤ pyRound n (clamp lo hi x) := pyRound_mono (lo_le_clamp lo hi x)
  · calc pyRound n (clamp lo hi x) ≤ pyRound n hi :=
        pyRound_mono (clamp_le_hi lo hi x h)
      _ = hi := hh

namespace BusinessIntelligenceEngine

lemma popularity_score_bounds (name : String) (categories : List Category)
    (r : ℚ) :
    1 ≤ pyRound 1 (calculate_popularity_score name categories r) ∧
    pyRound 1 (calculate_popularity_score name categories r) ≤ 10 := by
  unfold calculate_popularity_score
  have h := @pyRound_clamp_bounds 1 1 10
  norm_num at h ⊢
  exact h _ pyRound1_one pyRound1_ten

end BusinessIntelligenceEngine

namespace BusinessIntelligenceEngine

lemma sentiment_score_bounds (name category : String) (r : ℚ) :
    1 ≤ pyRound 1 (analyze_sentiment name category r) ∧
    pyRound 1 (analyze_sentiment name category r) ≤ 5 := by
  unfold analyze_sentiment
  have h := @pyRound_clamp_bounds 1 1 5
  norm_num at h ⊢
  exact h _ pyRound1_one pyRound1_five

lemma trending_score_bounds (category : String) (hour : ℕ) :
    0 ≤ pyRound 1 (calculate_trending_score category hour) ∧
    pyRound 1 (calculate_trending_score category hour) ≤ 10 := by
  unfold calculate_trending_score
  have h := @pyRound_clamp_bounds 1 0 10
  norm_num at h ⊢
  exact h _ pyRound1_zero pyRound1_ten

end BusinessIntelligenceEngine

namespace AccessibilityIntelligenceEngine

lemma accessibility_score_bounds (categories : List Category) (name : String)
    (r : ℚ) :
    0 ≤ pyRound 1 (calculate_accessibility_score categories name r) ∧
    pyRound 1 (calculate_accessibility_score categories name r) ≤ 10 := by
  unfold calculate_accessibility_score
  cases categories with
  | nil =>
    rw [show (5.0 : ℚ) = 5 from by norm_num, pyRound1_five]
    norm_num
  | cons c0 rest =>
    have h := @pyRound_clamp_bounds 1 0 10
    norm_num at h ⊢
    exact h _ pyRound1_zero pyRound1_ten

end AccessibilityIntelligenceEngine

lemma confidence_draw_bounds {r : ℚ} (h1 : 0.7 ≤ r) (h2 : r ≤ 0.95) :
    0.7 ≤ pyRound 2 r ∧ pyRound 2 r ≤ 0.95 :=
  ⟨pyRound2_low ▸ pyRound_mono h1, pyRound2_high ▸ pyRound_mono h2⟩

/-! ## Claim C1 -/

/-- **C1.** For every place input and every outcome of the random draws (the
context confidence draw lying in its documented `uniform(0.7, 0.95)` range;
the other scores are clamped, so no range assumption on their draws is even
needed), the scores in the analyzer results stay within their documented
ranges: `popularity_score ∈ [1,10]`, `sentiment_score ∈ [1,5]`,
`trending_score ∈ [0,10]`, `accessibility_score ∈ [0,10]` and the context
`confidence_score ∈ [0.7,0.95]`. -/
theorem claim1_score_ranges (place_data : PlaceObj) (env : Env)
    (hConf : 0.7 ≤ env.rConf ∧ env.rConf ≤ 0.95) :
    let b := BusinessIntelligenceEngine.analyze_place place_data env.hour
      env.rPop env.rSent
    let c := RealTimeContextEngine.analyze_context place_data env.hour
      env.rCrowd env.rWeather env.rConf
    let a := AccessibilityIntelligenceEngine.analyze_accessibility place_data
      env.rAccess env.featureDraws
    (1 ≤ b.popularity_score ∧ b.popularity_score ≤ 10) ∧
    (1 ≤ b.sentiment_score ∧ b.sentiment_score ≤ 5) ∧
    (0 ≤ b.trending_score ∧ b.trending_score ≤ 10) ∧
    (0 ≤ a.accessibility_score ∧ a.accessibility_score ≤ 10) ∧
    (0.7 ≤ c.confidence_score ∧ c.confidence_score ≤ 0.95) :=
  ⟨BusinessIntelligenceEngine.popularity_score_bounds _ _ _,
   BusinessIntelligenceEngine.sentiment_score_bounds _ _ _,
   BusinessIntelligenceEngine.trending_score_bounds _ _,
   AccessibilityIntelligenceEngine.accessibility_score_bounds _ _ _,
   confidence_draw_bounds hConf.1 hConf.2⟩

/-- Witness for C1 at a concrete place and concrete draws. -/
theorem claim1_score_ranges_witness :
    (0.7 ≤ sampleEnv.rConf ∧ sampleEnv.rConf ≤ 0.95) ∧
    ((1 ≤ (BusinessIntelligenceEngine.analyze_place samplePlace sampleEnv.hour
        sampleEnv.rPop sampleEnv.rSent).popularity_score ∧
      (BusinessIntelligenceEngine.analyze_place samplePlace sampleEnv.hour
        sampleEnv.rPop sampleEnv.rSent).popularity_score ≤ 10) ∧
     (1 ≤ (BusinessIntelligenceEngine.analyze_place samplePlace sampleEnv.hour
        sampleEnv.rPop sampleEnv.rSent).sentiment_score ∧
      (BusinessIntelligenceEngine.analyze_place samplePlace sampleEnv.hour
        sampleEnv.rPop sampleEnv.rSent).sentiment_score ≤ 5) ∧
     (0 ≤ (BusinessIntelligenceEngine.analyze_place samplePlace sampleEnv.hour
        sampleEnv.rPop sampleEnv.rSent).trending_score ∧
      (BusinessIntelligenceEngine.analyze_place samplePlace sampleEnv.hour
        sampleEnv.rPop sampleEnv.rSent).trending_score ≤ 10) ∧
     (0 ≤ (AccessibilityIntelligenceEngine.analyze_accessibility samplePlace
        sampleEnv.rAccess sampleEnv.featureDraws).accessibility_score ∧
      (AccessibilityIntelligenceEngine.analyze_accessibility samplePlace
        sampleEnv.rAccess sampleEnv.featureDraws).accessibility_score ≤ 10) ∧
     (0.7 ≤ (RealTimeContextEngine.analyze_context samplePlace sampleEnv.hour
        sampleEnv.rCrowd sampleEnv.rWeather sampleEnv.rConf).confidence_score ∧
      (RealTimeContextEngine.analyze_context samplePlace sampleEnv.hour
        sampleEnv.rCrowd sampleEnv.rWeather sampleEnv.rConf).confidence_score ≤ 0.95)) := by
  refine ⟨by norm_num [sampleEnv], ?_⟩
  have h := claim1_score_ranges samplePlace sampleEnv (by norm_num [sampleEnv])
  exact ⟨h.1, h.2.1, h.2.2.1, h.2.2.2.1, h.2.2.2.2⟩

/-! ## Claim C9 -/

/-- **C9.** A place whose categories sequence is empty gets accessibility
score exactly 5.0, whatever the name and the random draws: the early return
in `_calculate_accessibility_score` skips the name bonus and the random
perturbation; consequently `wheelchair_accessible` is `false`. -/
theorem claim9_empty_categories_accessibility (place_data : PlaceObj)
    (rScore : ℚ) (d : AccessibilityIntelligenceEngine.FeatureDraws)
    (h : place_data.getCategories = []) :
    AccessibilityIntelligenceEngine.calculate_accessibility_score []
      place_data.getName rScore = 5.0 ∧
    (AccessibilityIntelligenceEngine.analyze_accessibility place_data rScore
      d).accessibility_score = 5.0 ∧
    (AccessibilityIntelligenceEngine.analyze_accessibility place_data rScore
      d).wheelchair_accessible = false := by
  refine ⟨rfl, ?_, ?_⟩
  · show pyRound 1 (AccessibilityIntelligenceEngine.calculate_accessibility_score
      place_data.getCategories place_data.getName rScore) = 5.0
    rw [h]
    show pyRound 1 5.0 = 5.0
    rw [show (5.0 : ℚ) = 5 from by norm_num]
    exact pyRound1_five
  · show decide (AccessibilityIntelligenceEngine.calculate_accessibility_score
      place_data.getCategories place_data.getName rScore ≥ 7.0) = false
    rw [h]
    exact decide_eq_false (by norm_num [AccessibilityIntelligenceEngine.calculate_accessibility_score])

/-- Witness for C9: a place with no `categories` key, an extreme draw, and a
name full of bonus keywords still scores exactly 5.0. -/
theorem claim9_empty_categories_accessibility_witness :
    (⟨some "New Modern Center Mall", none, none, []⟩ : PlaceObj).getCategories = [] ∧
    (AccessibilityIntelligenceEngine.analyze_accessibility
      ⟨some "New Modern Center Mall", none, none, []⟩ 100
      ⟨true, true, true, true, true⟩).accessibility_score = 5.0 ∧
    (AccessibilityIntelligenceEngine.analyze_accessibility
      ⟨some "New Modern Center Mall", none, none, []⟩ 100
      ⟨true, true, true, true, true⟩).wheelchair_accessible = false := by
  have h := claim9_empty_categories_accessibility
    ⟨some "New Modern Center Mall", none, none, []⟩ 100
    ⟨true, true, true, true, true⟩ rfl
  exact ⟨rfl, h.2.1, h.2.2⟩

/-! ## Claim C2 -/

lemma pyRound1_seven : pyRound 1 7 = 7 := pyRound_self 70 (by norm_num)

lemma pyRound1_696 : pyRound 1 (6.96 : ℚ) = 7 := by
  unfold pyRound
  have h : ⌊(6.96 : ℚ) * 10 ^ 1 + 1 / 2⌋ = 70 := by
    rw [Int.floor_eq_iff]
    norm_num
  rw [h]
  norm_num

/-- **C2 counterexample.** At the concrete input below (name `"new venue"`,
category `"venue"`, accessibility draw `-1/25`) the raw accessibility score
is 6.96, so `wheelchair_accessible` is `false`, yet the accessibility_score
stored in the same result is the rounded value 7.0, so the documented
equivalence `wheelchair_accessible == (accessibility_score >= 7.0)` fails on
the returned result. -/
theorem claim2_counterexample :
    (AccessibilityIntelligenceEngine.analyze_accessibility
      ⟨some "new venue", some [⟨some "venue"⟩], none, []⟩ (-(1/25) : ℚ)
      ⟨false, false, false, false, false⟩).wheelchair_accessible = false ∧
    (AccessibilityIntelligenceEngine.analyze_accessibility
      ⟨some "new venue", some [⟨some "venue"⟩], none, []⟩ (-(1/25) : ℚ)
      ⟨false, false, false, false, false⟩).accessibility_score ≥ 7.0 ∧
    ¬((AccessibilityIntelligenceEngine.analyze_accessibility
      ⟨some "new venue", some [⟨some "venue"⟩], none, []⟩ (-(1/25) : ℚ)
      ⟨false, false, false, false, false⟩).wheelchair_accessible = true ↔
      (AccessibilityIntelligenceEngine.analyze_accessibility
        ⟨some "new venue", some [⟨some "venue"⟩], none, []⟩ (-(1/25) : ℚ)
        ⟨false, false, false, false, false⟩).accessibility_score ≥ 7.0) := by
  have hraw : AccessibilityIntelligenceEngine.calculate_accessibility_score
      [⟨some "venue"⟩] "new venue" (-(1/25) : ℚ) = 6.96 := by
    simp +decide only [AccessibilityIntelligenceEngine.calculate_accessibility_score]
    norm_num [clamp, pyMin, pyMax]
  have hwc : (AccessibilityIntelligenceEngine.analyze_accessibility
      ⟨some "new venue", some [⟨some "venue"⟩], none, []⟩ (-(1/25) : ℚ)
      ⟨false, false, false, false, false⟩).wheelchair_accessible = false := by
    show decide (AccessibilityIntelligenceEngine.calculate_accessibility_score
      [⟨some "venue"⟩] "new venue" (-(1/25) : ℚ) ≥ 7.0) = false
    rw [hraw]
    exact decide_eq_false (by norm_num)
  have hsc : (AccessibilityIntelligenceEngine.analyze_accessibility
      ⟨some "new venue", some [⟨some "venue"⟩], none, []⟩ (-(1/25) : ℚ)
      ⟨false, false, false, false, false⟩).accessibility_score = 7 := by
    show pyRound 1 (AccessibilityIntelligenceEngine.calculate_accessibility_score
      [⟨some "venue"⟩] "new venue" (-(1/25) : ℚ)) = 7
    rw [hraw]
    exact pyRound1_696
  refine ⟨hwc, by rw [hsc]; norm_num, ?_⟩
  intro hiff
  have h7 : (AccessibilityIntelligenceEngine.analyze_accessibility
      ⟨some "new venue", some [⟨some "venue"⟩], none, []⟩ (-(1/25) : ℚ)
      ⟨false, false, false, false, false⟩).accessibility_score ≥ 7.0 := by
    rw [hsc]; norm_num
  rw [hiff.mpr h7] at hwc
  exact absurd hwc (by simp)

/-- **C2 amended.** `wheelchair_accessible` equals the comparison of the
*pre-rounding* accessibility score against 7.0 (that is how the source
computes it, before the score is rounded for the result).  One direction of
the original claim survives rounding: `wheelchair_accessible = true` still
implies that the rounded score in the result is at least 7.0; the converse
fails exactly when the raw score lies in `[6.95, 7.0)`. -/
theorem claim2_amended (place_data : PlaceObj) (rScore : ℚ)
    (d : AccessibilityIntelligenceEngine.FeatureDraws) :
    ((AccessibilityIntelligenceEngine.analyze_accessibility place_data rScore
      d).wheelchair_accessible = true ↔
      7.0 ≤ AccessibilityIntelligenceEngine.calculate_accessibility_score
        place_data.getCategories place_data.getName rScore) ∧
    ((AccessibilityIntelligenceEngine.analyze_accessibility place_data rScore
      d).wheelchair_accessible = true →
      7.0 ≤ (AccessibilityIntelligenceEngine.analyze_accessibility place_data
        rScore d).accessibility_score) := by
  have hdef : (AccessibilityIntelligenceEngine.analyze_accessibility place_data
      rScore d).wheelchair_accessible =
      decide (AccessibilityIntelligenceEngine.calculate_accessibility_score
        place_data.getCategories place_data.getName rScore ≥ 7.0) := rfl
  constructor
  · rw [hdef]
    exact ⟨fun h => of_decide_eq_true h, fun h => decide_eq_true h⟩
  · intro h
    rw [hdef] at h
    have hraw := of_decide_eq_true h
    show 7.0 ≤ pyRound 1 (AccessibilityIntelligenceEngine.calculate_accessibility_score
      place_data.getCategories place_data.getName rScore)
    calc (7.0 : ℚ) = pyRound 1 7 := by rw [pyRound1_seven]; norm_num
      _ ≤ _ := pyRound_mono (by norm_num at hraw ⊢; exact hraw)

/-- Witness for C2 amended at a concrete accessible input (a library). -/
theorem claim2_amended_witness :
    ((AccessibilityIntelligenceEngine.analyze_accessibility
      ⟨some "City Library", some [⟨some "Library"⟩], none, []⟩ 0
      ⟨false, false, false, false, false⟩).wheelchair_accessible = true) ∧
    (7.0 ≤ (AccessibilityIntelligenceEngine.analyze_accessibility
      ⟨some "City Library", some [⟨some "Library"⟩], none, []⟩ 0
      ⟨false, false, false, false, false⟩).accessibility_score) := by
  have h := claim2_amended ⟨some "City Library", some [⟨some "Library"⟩], none, []⟩
    0 ⟨false, false, false, false, false⟩
  have hraw : (7.0 : ℚ) ≤ AccessibilityIntelligenceEngine.calculate_accessibility_score
      [⟨some "Library"⟩] "City Library" 0 := by
    simp +decide only [AccessibilityIntelligenceEngine.calculate_accessibility_score]
    norm_num [clamp, pyMin, pyMax]
  have hwc := h.1.mpr hraw
  exact ⟨hwc, h.2 hwc⟩

/-! ## Claim C3 -/

/-- **C3.** The Business Analyzer's classifier agrees with the spec's keyword
chain on every input (in particular the empty sequence yields `general`).
It is a Lean function of the categories sequence alone, so purity —
identical input, identical output — is immediate. -/
theorem claim3_classifier_spec (categories : List Category) :
    BusinessIntelligenceEngine.get_primary_category categories =
      classifierSpec categories ∧
    (categories = [] →
      BusinessIntelligenceEngine.get_primary_category categories = "general") := by
  constructor
  · cases categories with
    | nil => rfl
    | cons c0 rest =>
      simp only [BusinessIntelligenceEngine.get_primary_category, classifierSpec,
        List.any_cons, List.any_nil, Bool.or_false]
  · intro h
    rw [h]
    rfl

/-- Witness for C3: the empty sequence and a concrete labelled input. -/
theorem claim3_classifier_spec_witness :
    BusinessIntelligenceEngine.get_primary_category [] = "general" ∧
    BusinessIntelligenceEngine.get_primary_category [⟨some "Fitness Studio"⟩] =
      classifierSpec [⟨some "Fitness Studio"⟩] :=
  ⟨(claim3_classifier_spec []).2 rfl,
   (claim3_classifier_spec [⟨some "Fitness Studio"⟩]).1⟩

/-! ## Claim C4 -/

/-- **C4 counterexample.** `"library"` is one of the four known categories
(the label matches the `library` keyword), yet its crowd level is *not* a
deterministic function of the hour: `_estimate_crowd_level` has branches
only for restaurant/coffee/gym, so a library falls through to the
`random.choice` branch and returns whatever the draw was. -/
theorem claim4_counterexample :
    strContains "library" "library" = true ∧
    RealTimeContextEngine.estimate_crowd_level "library" 12 "quiet" = "quiet" ∧
    RealTimeContextEngine.estimate_crowd_level "library" 12 "busy" = "busy" ∧
    RealTimeContextEngine.estimate_crowd_level "library" 12 "quiet" ≠
      RealTimeContextEngine.estimate_crowd_level "library" 12 "busy" := by
  decide

/-- **C4 amended.** Only labels containing `restaurant`, `coffee` or `gym`
get a crowd level that is a deterministic function of the hour (via the
fixed busy/moderate hour sets); every other label — including `library` —
receives the `random.choice` draw verbatim. -/
theorem claim4_amended (category : String) (hour : ℕ) (d e : String) :
    ((strContains category "restaurant" || strContains category "coffee" ||
        strContains category "gym") = true →
      RealTimeContextEngine.estimate_crowd_level category hour d =
        RealTimeContextEngine.estimate_crowd_level category hour e) ∧
    ((strContains category "restaurant" || strContains category "coffee" ||
        strContains category "gym") = false →
      RealTimeContextEngine.estimate_crowd_level category hour d = d) := by
  unfold RealTimeContextEngine.estimate_crowd_level
  constructor <;> intro h <;> split_ifs <;> simp_all

/-- Witness for C4 amended: a restaurant label is draw-independent, a library
label returns the draw. -/
theorem claim4_amended_witness :
    RealTimeContextEngine.estimate_crowd_level "restaurant" 12 "quiet" =
      RealTimeContextEngine.estimate_crowd_level "restaurant" 12 "busy" ∧
    RealTimeContextEngine.estimate_crowd_level "library" 12 "moderate" =
      "moderate" :=
  ⟨(claim4_amended "restaurant" 12 "quiet" "busy").1 (by decide),
   (claim4_amended "library" 12 "moderate" "busy").2 (by decide)⟩

/-! ## Claim C5 -/

/-- **C5.** The if/elif chain of `_calculate_trending_score` is
extensionally equal to evaluating the three time bonuses as independent
additive conditions, for every category string and every hour; the equality
holds because the three guards are pairwise mutually exclusive (coffee vs.
restaurant, and the two disjoint restaurant hour windows), which the last
three conjuncts record. -/
theorem claim5_trending_refinement (category : String) (hour : ℕ) :
    BusinessIntelligenceEngine.calculate_trending_score category hour =
      trendingSpec category hour ∧
    ¬((category = "coffee" ∧ 7 ≤ hour ∧ hour ≤ 9) ∧
      (category = "restaurant" ∧ 12 ≤ hour ∧ hour ≤ 14)) ∧
    ¬((category = "coffee" ∧ 7 ≤ hour ∧ hour ≤ 9) ∧
      (category = "restaurant" ∧ 18 ≤ hour ∧ hour ≤ 20)) ∧
    ¬((category = "restaurant" ∧ 12 ≤ hour ∧ hour ≤ 14) ∧
      (category = "restaurant" ∧ 18 ≤ hour ∧ hour ≤ 20)) := by
  have hcr : ¬(category = "coffee" ∧ category = "restaurant") := by
    rintro ⟨h1, h2⟩
    rw [h1] at h2
    exact absurd h2 (by decide)
  refine ⟨?_, fun ⟨⟨a, _⟩, ⟨b, _⟩⟩ => hcr ⟨a, b⟩,
    fun ⟨⟨a, _⟩, ⟨b, _⟩⟩ => hcr ⟨a, b⟩, fun ⟨⟨_, _, a⟩, ⟨_, b, _⟩⟩ => by omega⟩
  unfold BusinessIntelligenceEngine.calculate_trending_score trendingSpec
  split_ifs <;> try norm_num
  all_goals exfalso
  all_goals try simp_all +decide
  all_goals omega

/-- Witness for C5 at a concrete category and hour. -/
theorem claim5_trending_refinement_witness :
    BusinessIntelligenceEngine.calculate_trending_score "coffee" 8 =
      trendingSpec "coffee" 8 :=
  (claim5_trending_refinement "coffee" 8).1

/-! ## Claim C6 -/

/-- **C6.** The Business Analyzer's mapped-enum classification and the
Context Analyzer's raw-label substring checks genuinely diverge: the label
`"Food Court"` is classified as `restaurant` by the Business Analyzer (via
the `food` keyword), while the Context Analyzer keeps the raw lower-cased
label `"food court"`, which does not contain `restaurant`, so the context
open-hours check takes the default branch (closed at hour 7) instead of the
restaurant branch (open at hour 7). -/
theorem claim6_classifier_asymmetry :
    BusinessIntelligenceEngine.get_primary_category [⟨some "Food Court"⟩] =
      "restaurant" ∧
    RealTimeContextEngine.get_primary_category [⟨some "Food Court"⟩] =
      "food court" ∧
    strContains (RealTimeContextEngine.get_primary_category
      [⟨some "Food Court"⟩]) "restaurant" = false ∧
    RealTimeContextEngine.determine_status (RealTimeContextEngine.get_primary_category
      [⟨some "Food Court"⟩]) 7 = "closed" ∧
    RealTimeContextEngine.determine_status "restaurant" 7 = "open" := by
  decide

/-! ## Claim C7 -/

/-- `take n` always yields a leading segment of the list. -/
lemma take_leading {α : Type} (n : ℕ) (l : List α) : l.take n <+: l :=
  ⟨l.drop n, List.take_append_drop n l⟩

/-- **C7.** The synthesis lists respect their documented caps for *every*
combination of analyzer outputs: at most 4 personalized insights, at most 3
alternative suggestions, at most 3 accessibility notes; and each returned
list is a leading segment of the corresponding ordered candidate list, so
truncation preserves the order in which the candidate checks are
evaluated. -/
theorem claim7_synthesis_caps (place_data : PlaceObj)
    (b : BusinessIntelligenceEngine.BusinessResult)
    (c : RealTimeContextEngine.ContextResult)
    (a : AccessibilityIntelligenceEngine.AccessResult) :
    (UnifiedRecommendationEngine.generate_personalized_insights b c a).length ≤ 4 ∧
    UnifiedRecommendationEngine.generate_personalized_insights b c a <+:
      UnifiedRecommendationEngine.insight_candidates b c a ∧
    (UnifiedRecommendationEngine.suggest_alternatives place_data).length ≤ 3 ∧
    UnifiedRecommendationEngine.suggest_alternatives place_data <+:
      UnifiedRecommendationEngine.alternative_candidates
        (pyLower (place_data.getCategories.headD ⟨none⟩).getName) ∧
    (UnifiedRecommendationEngine.create_accessibility_notes a).length ≤ 3 ∧
    UnifiedRecommendationEngine.create_accessibility_notes a <+:
      UnifiedRecommendationEngine.note_candidates a := by
  refine ⟨?_, take_leading 4 _, ?_, ?_, ?_, take_leading 3 _⟩
  · unfold UnifiedRecommendationEngine.generate_personalized_insights
    rw [List.length_take]
    exact min_le_left _ _
  · unfold UnifiedRecommendationEngine.suggest_alternatives
    cases h : place_data.getCategories with
    | nil => simp
    | cons c0 rest =>
      rw [List.length_take]
      exact min_le_left _ _
  · unfold UnifiedRecommendationEngine.suggest_alternatives
    cases h : place_data.getCategories with
    | nil => exact ⟨_, rfl⟩
    | cons c0 rest => exact take_leading 3 _
  · unfold UnifiedRecommendationEngine.create_accessibility_notes
    rw [List.length_take]
    exact min_le_left _ _

/-! ## Claim C10 -/

lemma pyRound2_1115 : pyRound 2 (11 / 15 : ℚ) = 0.73 := by
  unfold pyRound
  have h : ⌊(11 / 15 : ℚ) * 10 ^ 2 + 1 / 2⌋ = 73 := by
    rw [Int.floor_eq_iff]
    norm_num
  rw [h]
  norm_num

/-- With the draw in its documented range, the accessibility score reported
in the result is at least 4 (5.0 on the empty-categories early return;
otherwise base 5.0 plus non-negative bonuses minus at most 1). -/
lemma accessibility_score_floor (categories : List Category) (name : String)
    {r : ℚ} (hr : -1 ≤ r) :
    4 ≤ pyRound 1 (AccessibilityIntelligenceEngine.calculate_accessibility_score
      categories name r) := by
  unfold AccessibilityIntelligenceEngine.calculate_accessibility_score
  cases categories with
  | nil =>
    rw [show (5.0 : ℚ) = 5 from by norm_num, pyRound1_five]
    norm_num
  | cons c0 rest =>
    calc (4 : ℚ) = pyRound 1 4 := pyRound1_four.symm
      _ ≤ _ := by
        apply pyRound_mono
        apply le_clamp _ _ _ _ (by norm_num)
        split_ifs <;> linarith

/-- **C10.** In the orchestrated pipeline the synthesis default confidence
0.5 is unreachable: the business popularity score in the result is at least
1 (hence positive), the context confidence is at least 0.7 (hence positive)
and the accessibility score is at least 4 (hence positive), so all three
weights are collected — the weights list is `[0.8, context confidence, 0.7]`,
never empty — and the synthesized confidence score is at least 0.73. -/
theorem claim10_confidence_floor (place_data : PlaceObj) (env : Env)
    (h1 : 0.7 ≤ env.rConf) (h2 : -1 ≤ env.rAccess) :
    let b := BusinessIntelligenceEngine.analyze_place place_data env.hour
      env.rPop env.rSent
    let c := RealTimeContextEngine.analyze_context place_data env.hour
      env.rCrowd env.rWeather env.rConf
    let a := AccessibilityIntelligenceEngine.analyze_accessibility place_data
      env.rAccess env.featureDraws
    UnifiedRecommendationEngine.confidence_weights b c a ≠ [] ∧
    0.73 ≤ (UnifiedRecommendationEngine.generate_recommendations place_data
      b c a).confidence_score := by
  intro b c a
  have hb : (1 : ℚ) ≤ b.popularity_score :=
    (BusinessIntelligenceEngine.popularity_score_bounds place_data.getName
      place_data.getCategories env.rPop).1
  have hc : (0.7 : ℚ) ≤ c.confidence_score := pyRound2_low ▸ pyRound_mono h1
  have ha : (4 : ℚ) ≤ a.accessibility_score :=
    accessibility_score_floor place_data.getCategories place_data.getName h2
  have hw : UnifiedRecommendationEngine.confidence_weights b c a =
      [0.8, c.confidence_score, 0.7] := by
    unfold UnifiedRecommendationEngine.confidence_weights
    rw [if_pos (by linarith), if_pos (by linarith), if_pos (by linarith)]
    rfl
  refine ⟨by rw [hw]; simp, ?_⟩
  show 0.73 ≤ pyRound 2 (UnifiedRecommendationEngine.calculate_confidence_score b c a)
  have hcs : UnifiedRecommendationEngine.calculate_confidence_score b c a =
      (0.8 + c.confidence_score + 0.7) / 3 := by
    unfold UnifiedRecommendationEngine.calculate_confidence_score
    simp only [hw]
    rw [if_neg (by simp)]
    norm_num
    ring
  rw [hcs]
  calc (0.73 : ℚ) = pyRound 2 (11 / 15) := pyRound2_1115.symm
    _ ≤ _ := pyRound_mono (by linarith)

/-- Witness for C10 at a concrete place and concrete in-range draws. -/
theorem claim10_confidence_floor_witness :
    ((0.7 : ℚ) ≤ sampleEnv.rConf ∧ (-1 : ℚ) ≤ sampleEnv.rAccess) ∧
    UnifiedRecommendationEngine.confidence_weights
      (BusinessIntelligenceEngine.analyze_place samplePlace sampleEnv.hour
        sampleEnv.rPop sampleEnv.rSent)
      (RealTimeContextEngine.analyze_context samplePlace sampleEnv.hour
        sampleEnv.rCrowd sampleEnv.rWeather sampleEnv.rConf)
      (AccessibilityIntelligenceEngine.analyze_accessibility samplePlace
        sampleEnv.rAccess sampleEnv.featureDraws) ≠ [] ∧
    0.73 ≤ (UnifiedRecommendationEngine.generate_recommendations samplePlace
      (BusinessIntelligenceEngine.analyze_place samplePlace sampleEnv.hour
        sampleEnv.rPop sampleEnv.rSent)
      (RealTimeContextEngine.analyze_context samplePlace sampleEnv.hour
        sampleEnv.rCrowd sampleEnv.rWeather sampleEnv.rConf)
      (AccessibilityIntelligenceEngine.analyze_accessibility samplePlace
        sampleEnv.rAccess sampleEnv.featureDraws)).confidence_score := by
  refine ⟨by norm_num [sampleEnv], ?_⟩
  exact claim10_confidence_floor samplePlace sampleEnv
    (by norm_num [sampleEnv]) (by norm_num [sampleEnv])

/-! ## Claim C8 -/

/-- **C8.** The enhance endpoint answers 400 with an `error` field exactly
when the body is missing/empty or the `place` key is missing or maps to an
empty object (no analysis is run on that branch of the handler); on every
other body it answers 200 and the response carries exactly the six
documented top-level keys, in order. -/
theorem claim8_endpoint_contract (env : Env) (body : Option ReqBody) :
    (((enhance_place_intelligence env body).status = 400 ∧
      (enhance_place_intelligence env body).hasErrorField = true) ↔
      specBadRequest body = true) ∧
    (specBadRequest body = false →
      (enhance_place_intelligence env body).status = 200 ∧
      (enhance_place_intelligence env body).topKeys =
        ["business_intelligence", "real_time_context",
         "accessibility_intelligence", "unified_recommendations",
         "processing_time_ms", "data_sources"]) := by
  rcases body with _ | d
  · simp [enhance_place_intelligence, specBadRequest, HttpResult.status,
      HttpResult.hasErrorField]
  · by_cases h1 : d.isEmptyDict
    · simp [enhance_place_intelligence, specBadRequest, h1, HttpResult.status,
        HttpResult.hasErrorField]
    · by_cases h2 : (d.place.getD ⟨none, none, none, []⟩).isEmptyDict
      · simp [enhance_place_intelligence, specBadRequest, h1, h2,
          HttpResult.status, HttpResult.hasErrorField]
      · simp [enhance_place_intelligence, specBadRequest, h1, h2,
          HttpResult.status, HttpResult.hasErrorField, HttpResult.topKeys,
          enhancePipeline]

/-- Witness for C8: a well-formed body is not a bad request and receives a
200 response with the six documented keys. -/
theorem claim8_endpoint_contract_witness :
    specBadRequest (some sampleBody) = false ∧
    (enhance_place_intelligence sampleEnv (some sampleBody)).status = 200 ∧
    (enhance_place_intelligence sampleEnv (some sampleBody)).topKeys =
      ["business_intelligence", "real_time_context",
       "accessibility_intelligence", "unified_recommendations",
       "processing_time_ms", "data_sources"] :=
  ⟨by decide,
   (claim8_endpoint_contract sampleEnv (some sampleBody)).2 (by decide)⟩
